import Mathlib

/-!
Shallow embedding of the trading-bot core (strategy base class, PVA strategy,
strategy engine/orchestrator, and the market-data websocket client) together
with theorems settling the frozen claims about it.

Python floats are modelled as rationals (ℚ), wall-clock instants as explicit
hour/minute pairs or abstract second counts, and Python dicts with known key
sets as structures.  Fallible or optional dict lookups become `Option`.
-/

namespace TradingBot

/-- Mirrors `TradeType` in `base_strategy.py`. -/
inductive TradeType where
  | LONG
  | SHORT
deriving DecidableEq, Repr

/-- Mirrors the `Position` dataclass in `base_strategy.py`.  `stop_loss` and
`target_price` are `Optional` in Python but are always assigned immediately
after construction in `execute_virtual_trade` (the only producer of positions
that later reach `_check_exit_conditions`), so they are embedded as plain
rationals.  Timestamps are abstract seconds. -/
structure Position where
  id : String
  symbol : String
  trade_type : TradeType
  entry_time : ℚ
  entry_price : ℚ
  quantity : ℤ
  stop_loss : ℚ
  target_price : ℚ
  exit_time : Option ℚ := none
  exit_price : Option ℚ := none
  exit_reason : Option String := none
  pnl : Option ℚ := none
  status : String := "OPEN"
deriving DecidableEq, Repr

/-- Mirrors the `Signal` dataclass in `base_strategy.py`.  Of the indicator
dict only the entries read by `execute_virtual_trade` are kept: the optional
`atr` value (absent keys become `none`, matching `indicators.get("atr", ...)`). -/
structure Signal where
  strategy_id : String
  symbol : String
  signal_type : TradeType
  signal_strength : ℚ
  price : ℚ
  atr : Option ℚ
  timestamp : ℚ
deriving DecidableEq, Repr

/-- Mutable runtime state of `BaseStrategy` (the fields read or written by the
risk/position machinery), plus the config-derived limits set in `__init__`.
`last_trade_time` is the symbol-to-timestamp dict as an association list. -/
structure StrategyState where
  virtual_positions : List Position
  last_trade_time : List (String × ℚ)
  virtual_pnl : ℚ
  virtual_trade_count : ℕ
  win_rate : ℚ
  max_position_size : ℚ := 2 / 100
  max_open_trades : ℕ := 3
  max_daily_loss : ℚ := 6 / 100
  reentry_cooldown : ℚ := 30 * 60
deriving DecidableEq, Repr

/-- Dict lookup in `last_trade_time` (`symbol in self.last_trade_time`). -/
def lookupLastTrade (s : StrategyState) (symbol : String) : Option ℚ :=
  (s.last_trade_time.find? (fun p => p.1 = symbol)).map Prod.snd

/-- Open virtual positions, as counted by `can_enter_trade`. -/
def openPositionCount (s : StrategyState) : ℕ :=
  (s.virtual_positions.filter (fun p => p.status = "OPEN")).length

/-- Mirrors `BaseStrategy.can_enter_trade`.  `now` stands for
`datetime.now().timestamp()` (seconds). -/
def can_enter_trade (s : StrategyState) (symbol : String) (now : ℚ) : Bool :=
  if s.max_open_trades ≤ openPositionCount s then false
  else if (match lookupLastTrade s symbol with
           | some t => decide (now - t < s.reentry_cooldown)
           | none => false) then false
  else if s.max_daily_loss ≤ |s.virtual_pnl| then false
  else true

/-- Python `int()` applied to a rational: truncation toward zero. -/
def pyInt (q : ℚ) : ℤ :=
  if q < 0 then -(⌊-q⌋) else ⌊q⌋

/-- The 3-tier strength multiplier inside `calculate_position_size`. -/
def size_multiplier (signal_strength : ℚ) : ℚ :=
  if 250 < signal_strength then 1
  else if 150 ≤ signal_strength ∧ signal_strength ≤ 250 then 3 / 4
  else 1 / 2

/-- Mirrors `BaseStrategy.calculate_position_size`: fixed capital 100000,
base allocation `max_position_size` (default 2%), tiered multiplier,
`int()`-truncated quantity floored to a minimum of 1. -/
def calculate_position_size (s : StrategyState) (signal_strength price : ℚ) : ℤ :=
  let capital : ℚ := 100000
  let position_value := capital * s.max_position_size * size_multiplier signal_strength
  max 1 (pyInt (position_value / price))

/-- Mirrors `BaseStrategy.execute_virtual_trade`.  Returns the created
position (or `none` on risk rejection) together with the successor state; the
Python method mutates `self` in place.  The generated position id string is
abstracted to the strategy id. -/
def execute_virtual_trade (s : StrategyState) (signal : Signal) (now : ℚ) :
    Option Position × StrategyState :=
  if ¬ can_enter_trade s signal.symbol now then (none, s)
  else
    let quantity := calculate_position_size s signal.signal_strength signal.price
    let atr := signal.atr.getD (signal.price * (2 / 100))
    let position : Position :=
      { id := "virtual_" ++ signal.strategy_id
        symbol := signal.symbol
        trade_type := signal.signal_type
        entry_time := signal.timestamp
        entry_price := signal.price
        quantity := quantity
        stop_loss :=
          match signal.signal_type with
          | .LONG => signal.price - (3 / 2) * atr
          | .SHORT => signal.price + (3 / 2) * atr
        target_price :=
          match signal.signal_type with
          | .LONG => signal.price + 2 * atr
          | .SHORT => signal.price - 2 * atr }
    (some position,
     { s with
        virtual_positions := s.virtual_positions ++ [position]
        last_trade_time :=
          (signal.symbol, signal.timestamp) ::
            s.last_trade_time.filter (fun p => ¬ p.1 = signal.symbol) })

/-- The slice of the market-data dict read by `_check_exit_conditions`:
`volume` (default 0 is irrelevant here, the key is always present on ticks)
and the optional `avg_volume` (`market_data.get("avg_volume", volume)`). -/
structure ExitMarketData where
  volume : ℚ
  avg_volume : Option ℚ
deriving DecidableEq, Repr

/-- The wall-clock gate of the time-based exit inside
`BaseStrategy._check_exit_conditions`:
`current_time.hour >= 15 and current_time.minute >= 15`. -/
def strategy_eod_condition (hour minute : ℕ) : Bool :=
  decide (15 ≤ hour) && decide (15 ≤ minute)

/-- Mirrors `BaseStrategy._check_exit_conditions`, returning the exit reason
that `_close_position` would record (`none` when the position stays open).
The Python code initialises `(should_exit, exit_reason)` to `(False, None)`
and assigns the pair sequentially without early return, so a later matching
condition overwrites an earlier one; each `let` below reproduces one of those
assignment blocks.  `hour`/`minute` stand for `datetime.now()`. -/
def _check_exit_conditions (position : Position) (current_price : ℚ)
    (md : ExitMarketData) (hour minute : ℕ) : Option String :=
  let st0 : Bool × Option String := (false, none)
  let st1 : Bool × Option String :=
    match position.trade_type with
    | .LONG =>
        if position.target_price ≤ current_price then (true, some "TARGET")
        else if current_price ≤ position.stop_loss then (true, some "STOP_LOSS")
        else st0
    | .SHORT =>
        if current_price ≤ position.target_price then (true, some "TARGET")
        else if position.stop_loss ≤ current_price then (true, some "STOP_LOSS")
        else st0
  let avg_volume := md.avg_volume.getD md.volume
  let st2 : Bool × Option String :=
    if md.volume < (1 / 2) * avg_volume then (true, some "LOW_VOLUME") else st1
  let st3 : Bool × Option String :=
    if strategy_eod_condition hour minute then (true, some "EOD") else st2
  if st3.1 then st3.2 else none

/-- Mirrors `BaseStrategy._close_position` (the fields it sets on the
position; the running P&L / win-rate bookkeeping on the state is not needed
by the claims and is omitted from the returned position record). -/
def _close_position (position : Position) (exit_price : ℚ) (exit_reason : String)
    (now : ℚ) : Position :=
  { position with
      exit_time := some now
      exit_price := some exit_price
      exit_reason := some exit_reason
      status := "CLOSED"
      pnl := some (match position.trade_type with
        | .LONG => (exit_price - position.entry_price) * position.quantity
        | .SHORT => (position.entry_price - exit_price) * position.quantity) }

/-! ### Strategy engine (`strategy_engine.py`) -/

/-- The per-strategy fields of `BaseStrategy` that `StrategyEngine` reads and
writes during emergency stop and routing. -/
structure StratRec where
  strategy_id : String
  name : String
  is_simulation_active : Bool
  is_live_mode : Bool
deriving DecidableEq, Repr

/-- One element of the `affected_strategies` list built by
`StrategyEngine.emergency_stop`. -/
structure AuditEntry where
  strategy_id : String
  name : String
  was_live : Bool
deriving DecidableEq, Repr

/-- The emergency-stop audit record passed to
`create_emergency_stop_log` (timestamp omitted). -/
structure EmergencyLog where
  triggered_by : String
  reason : String
  affected_strategies : List AuditEntry
  total_strategies_stopped : ℕ
deriving DecidableEq, Repr

/-- The `StrategyEngine` fields relevant to routing and emergency stop.
`strategies` is the value list of the registry dict. -/
structure EngineState where
  strategies : List StratRec
  emergency_stopped : Bool
deriving DecidableEq, Repr

/-- Mirrors `StrategyEngine.get_active_strategies`. -/
def get_active_strategies (e : EngineState) : List StratRec :=
  e.strategies.filter (fun s => s.is_simulation_active)

/-- Mirrors `StrategyEngine.get_live_strategies`. -/
def get_live_strategies (e : EngineState) : List StratRec :=
  e.strategies.filter (fun s => s.is_live_mode)

/-- One iteration of the `for strategy in self.strategies.values()` loop of
`emergency_stop`: clear the live flag (counting it if it was set), clear the
simulation flag, then build the audit entry — whose `was_live` field reads
`strategy.is_live_mode` *after* the flag was cleared, exactly as the Python
loop does. -/
def stopStrategy (s : StratRec) : StratRec × AuditEntry :=
  let s1 := { s with is_live_mode := false }
  let s2 := { s1 with is_simulation_active := false }
  (s2, { strategy_id := s2.strategy_id, name := s2.name, was_live := s2.is_live_mode })

/-- Mirrors `StrategyEngine.emergency_stop`: sets the `emergency_stopped`
flag, runs `stopStrategy` over every registered strategy, and assembles the
audit record (`total_strategies_stopped` counts strategies whose live flag
was set on entry). -/
def emergency_stop (e : EngineState) (reason triggered_by : String) :
    EngineState × EmergencyLog :=
  ({ strategies := e.strategies.map (fun s => (stopStrategy s).1)
     emergency_stopped := true },
   { triggered_by := triggered_by
     reason := reason
     affected_strategies := e.strategies.map (fun s => (stopStrategy s).2)
     total_strategies_stopped := (get_live_strategies e).length })

/-- The routing decision of `StrategyEngine._on_market_data`: incoming market
data is processed through the active strategies only when
`self.emergency_stopped` is clear (`_process_strategies` iterates over
`get_active_strategies`). -/
def routed_strategies (e : EngineState) : List StratRec :=
  if e.emergency_stopped then [] else get_active_strategies e

/-- The wall-clock gate of `StrategyEngine._check_eod_exit`:
`current_time.hour == 15 and current_time.minute >= 15`. -/
def engine_eod_condition (hour minute : ℕ) : Bool :=
  decide (hour = 15) && decide (15 ≤ minute)

/-! ### PVA strategy (`pva_strategy.py`) -/

/-- Python `np.mean` of a list of rationals. -/
def npMean (l : List ℚ) : ℚ := l.sum / l.length

/-- The Python slice `obv_array[-10:-5]`, taken under the guard
`len(obv_array) >= 10`: the five elements 10..6 bars back. -/
def obvSlice (l : List ℚ) : List ℚ :=
  (l.drop (l.length - 10)).take 5

/-- The indicator snapshot fields read by `PVAStrategy.generate_signals`.  A
snapshot produced by `analyze_market_data` always carries all of these keys,
so they are plain fields; the series-valued ones keep their list form
(most-recent-last) because `generate_signals` re-reads their lengths and last
elements. -/
structure PVASnapshot where
  current_price : ℚ
  current_volume : ℚ
  obv : List ℚ
  vroc : List ℚ
  vwap : List ℚ
  avg_volume_20 : List ℚ
  poc : ℚ
  resistance : ℚ
  support : ℚ
deriving DecidableEq, Repr

/-- The condition dict built by `PVAStrategy._check_long_conditions`. -/
structure LongConditions where
  price_breakout : Bool
  volume_confirm : Bool
  obv_divergence : Bool
  buying_above_poc : Bool
  vroc_breakout : Bool
  price_above_vwap : Bool
  expanding_volume : Bool
deriving DecidableEq, Repr

/-- The final `conditions["all_met"]` conjunction for the long side. -/
def LongConditions.all_met (c : LongConditions) : Bool :=
  c.price_breakout && c.volume_confirm && c.obv_divergence && c.buying_above_poc &&
    c.vroc_breakout && c.price_above_vwap && c.expanding_volume

/-- Mirrors `PVAStrategy._check_long_conditions`
(`volume_breakout_threshold = 1.5`, `vroc_breakout_threshold = 2.0`). -/
def _check_long_conditions (price volume obv vroc vwap avg_vol resistance poc : ℚ)
    (obv_array : List ℚ) : LongConditions :=
  { price_breakout := decide (resistance < price)
    volume_confirm := decide (avg_vol * (3 / 2) < volume)
    obv_divergence :=
      if 10 ≤ obv_array.length then decide (npMean (obvSlice obv_array) < obv)
      else true
    buying_above_poc := decide (poc < price)
    vroc_breakout := decide ((2 : ℚ) * 100 < vroc)
    price_above_vwap := decide (vwap < price)
    expanding_volume := decide (avg_vol < volume) }

/-- The condition dict built by `PVAStrategy._check_short_conditions`. -/
structure ShortConditions where
  price_breakdown : Bool
  volume_confirm : Bool
  obv_divergence : Bool
  selling_below_poc : Bool
  vroc_breakdown : Bool
  price_below_vwap : Bool
  expanding_volume : Bool
deriving DecidableEq, Repr

/-- The final `conditions["all_met"]` conjunction for the short side. -/
def ShortConditions.all_met (c : ShortConditions) : Bool :=
  c.price_breakdown && c.volume_confirm && c.obv_divergence && c.selling_below_poc &&
    c.vroc_breakdown && c.price_below_vwap && c.expanding_volume

/-- Mirrors `PVAStrategy._check_short_conditions`. -/
def _check_short_conditions (price volume obv vroc vwap avg_vol support poc : ℚ)
    (obv_array : List ℚ) : ShortConditions :=
  { price_breakdown := decide (price < support)
    volume_confirm := decide (avg_vol * (3 / 2) < volume)
    obv_divergence :=
      if 10 ≤ obv_array.length then decide (obv < npMean (obvSlice obv_array))
      else true
    selling_below_poc := decide (price < poc)
    vroc_breakdown := decide ((2 : ℚ) * 100 < vroc)
    price_below_vwap := decide (price < vwap)
    expanding_volume := decide (avg_vol < volume) }

/-- Mirrors `PVAStrategy.generate_signals`, reduced to the emitted direction
(the other `Signal` fields are copies of snapshot values and metadata).  The
initial `if not indicators` dict guard is outside this model because a
`PVASnapshot` is by construction a populated snapshot; the remaining guards
(`current_price == 0 or current_volume == 0`, empty indicator series) are
reproduced, as are the `x[-1] if len(x) > 0 else d` extractions. -/
def generate_signals (ind : PVASnapshot) : Option TradeType :=
  if ind.current_price = 0 ∨ ind.current_volume = 0 then none
  else if ind.obv.length = 0 ∨ ind.vroc.length = 0 ∨ ind.vwap.length = 0 ∨
      ind.avg_volume_20.length = 0 then none
  else
    let current_obv := ind.obv.getLastD 0
    let current_vroc := ind.vroc.getLastD 0
    let current_vwap := ind.vwap.getLastD ind.current_price
    let current_avg_vol := ind.avg_volume_20.getLastD ind.current_volume
    let long_conditions := _check_long_conditions ind.current_price ind.current_volume
      current_obv current_vroc current_vwap current_avg_vol ind.resistance ind.poc ind.obv
    let short_conditions := _check_short_conditions ind.current_price ind.current_volume
      current_obv current_vroc current_vwap current_avg_vol ind.support ind.poc ind.obv
    if long_conditions.all_met then some TradeType.LONG
    else if short_conditions.all_met then some TradeType.SHORT
    else none

/-! ### OHLCV aggregation (`dhanhq_client.py`) -/

/-- A `datetime` instant as seen by `_should_create_new_bar`: absolute
seconds (for `total_seconds` of a difference) and the calendar-date ordinal
(for `.date()` comparison). -/
structure PyTimestamp where
  sec : ℤ
  day : ℤ
deriving DecidableEq, Repr

/-- The `tick_info` dict fields consumed by `_update_ohlcv`. -/
structure TickInfo where
  ltp : ℚ
  high : ℚ
  low : ℚ
  volume : ℚ
  timestamp : PyTimestamp
deriving DecidableEq, Repr

/-- An entry of `self.ohlcv_data[symbol][tf]`.  The Python dict key `open`
is a Lean keyword, hence `open_price` (the name the engine stores it under). -/
structure OhlcvBar where
  open_price : ℚ
  high : ℚ
  low : ℚ
  close : ℚ
  volume : ℚ
  timestamp : PyTimestamp
deriving DecidableEq, Repr

/-- Mirrors `DhanHQWebSocketClient._should_create_new_bar`, including the
trailing `return False` for unknown timeframe strings. -/
def _should_create_new_bar (last_timestamp current_timestamp : PyTimestamp)
    (timeframe : String) : Bool :=
  let time_diff := current_timestamp.sec - last_timestamp.sec
  if timeframe = "1min" then decide (60 ≤ time_diff)
  else if timeframe = "5min" then decide (300 ≤ time_diff)
  else if timeframe = "15min" then decide (900 ≤ time_diff)
  else if timeframe = "daily" then decide (current_timestamp.day ≠ last_timestamp.day)
  else false

/-- The bar seeded from a tick (both the no-bar-yet branch and the new-bar
branch of `_update_ohlcv` build exactly this dict). -/
def barFromTick (t : TickInfo) : OhlcvBar :=
  { open_price := t.ltp, high := t.high, low := t.low, close := t.ltp,
    volume := t.volume, timestamp := t.timestamp }

/-- Mirrors the effect of one tick on the existing bar of one timeframe in
`DhanHQWebSocketClient._update_ohlcv`. -/
def _update_ohlcv (current_bar : OhlcvBar) (t : TickInfo) (tf : String) : OhlcvBar :=
  if _should_create_new_bar current_bar.timestamp t.timestamp tf then barFromTick t
  else
    { current_bar with
        high := max current_bar.high t.high
        low := min current_bar.low t.low
        close := t.ltp
        volume := current_bar.volume + t.volume }

/-- Folding a tick sequence into the bar opened by its first tick. -/
def foldTicks (t0 : TickInfo) (rest : List TickInfo) (tf : String) : OhlcvBar :=
  rest.foldl (fun bar t => _update_ohlcv bar t tf) (barFromTick t0)

/-! ### Reconnect loop (`dhanhq_client.py`, `_handle_reconnection`) -/

/-- Observable outcome of `_handle_reconnection`: the backoff sleeps
performed before each attempt (in order, in abstract seconds), the final
`retry_count`, whether a reconnect succeeded, and the instrument list passed
to the single `subscribe_to_feed` call (empty when none occurred). -/
structure ReconnectResult where
  delays : List ℕ
  retry_count : ℕ
  reconnected : Bool
  resubscribed : List String
deriving DecidableEq, Repr

/-- The `while retry_count < max_retries and not is_connected` loop of
`_handle_reconnection` (`max_retries = 5`).  `connectOk k` abstracts whether
the attempt with `retry_count = k` (its `sleep(2 ** k)` included) runs to
completion or raises; on success the held `subscriptions` are re-issued when
non-empty and the loop breaks, on failure `retry_count` is incremented. -/
def reconnect_loop (connectOk : ℕ → Bool) (subscriptions : List String)
    (retry_count : ℕ) (delays : List ℕ) : ReconnectResult :=
  if retry_count < 5 then
    let delays1 := delays ++ [2 ^ retry_count]
    if connectOk retry_count then
      { delays := delays1, retry_count := retry_count, reconnected := true,
        resubscribed := if subscriptions.isEmpty then [] else subscriptions }
    else reconnect_loop connectOk subscriptions (retry_count + 1) delays1
  else
    { delays := delays, retry_count := retry_count, reconnected := false,
      resubscribed := [] }
termination_by 5 - retry_count
decreasing_by omega

/-- Mirrors `DhanHQWebSocketClient._handle_reconnection` (entered with
`retry_count = 0`). -/
def _handle_reconnection (connectOk : ℕ → Bool) (subscriptions : List String) :
    ReconnectResult :=
  reconnect_loop connectOk subscriptions 0 []

/-- The terminal `if retry_count >= max_retries` check after the loop: the
"max reconnection attempts reached" condition the spec calls
`FeedUnavailable`. -/
def feed_unavailable (r : ReconnectResult) : Bool :=
  decide (5 ≤ r.retry_count)

/-! ## Claims -/

/-- C1 (amended): after `emergency_stop` completes, every registered strategy
has both its simulation-active flag and its live flag cleared (zero
strategies SIMULATING or LIVE), incoming market data is routed to no
strategy while the emergency-stop flag is set, and the affected-strategies
list of the audit record contains exactly one entry per *registered*
strategy — hence exactly N entries only in the special case where all
registered strategies were SIMULATING or LIVE. -/
theorem emergency_stop_halts_and_audits_all_registered (e : EngineState)
    (reason triggered_by : String) :
    ((emergency_stop e reason triggered_by).1.strategies.all
        (fun s => !s.is_simulation_active && !s.is_live_mode)) = true ∧
    (emergency_stop e reason triggered_by).2.affected_strategies.length
      = e.strategies.length ∧
    routed_strategies (emergency_stop e reason triggered_by).1 = [] := by
  refine ⟨?_, ?_, ?_⟩
  · simp [emergency_stop, stopStrategy, List.all_map, Function.comp_def]
  · simp [emergency_stop]
  · simp [routed_strategies, emergency_stop]

/-- C1 counterexample: a registry holding one strategy that is neither
SIMULATING nor LIVE has N = 0 strategies to stop, yet the audit record of
`emergency_stop` contains 1 affected entry, refuting the claimed count of
exactly N. -/
theorem emergency_stop_audit_count_counterexample :
    (((⟨[⟨"s1", "PVA Strategy", false, false⟩], false⟩ : EngineState).strategies.filter
        (fun s => s.is_simulation_active || s.is_live_mode)).length = 0) ∧
    (emergency_stop ⟨[⟨"s1", "PVA Strategy", false, false⟩], false⟩
        "manual" "operator").2.affected_strategies.length = 1 ∧
    (0 : ℕ) ≠ 1 := by
  exact ⟨rfl, rfl, by decide⟩

/-- C10: in every audit record produced by `emergency_stop`, the `was_live`
field of every affected-strategy entry is `false` — including for strategies
whose live flag was set immediately before the stop — because the live flag
is cleared before the audit entry is recorded. -/
theorem emergency_stop_audit_was_live_always_false (e : EngineState)
    (reason triggered_by : String) :
    ((emergency_stop e reason triggered_by).2.affected_strategies.all
        (fun a => !a.was_live)) = true := by
  simp [emergency_stop, stopStrategy, List.all_map, Function.comp_def]

/-- C6 failing input: a strategy in the default configuration
(`max_daily_loss = 0.06`, capital 100000) with no open positions, no prior
trade on the symbol, and cumulative virtual P&L of -1.0 currency units.  The
claim (6% *of capital*, i.e. threshold 6000) says entry is allowed since
1 < 6000, but `can_enter_trade` compares `abs(virtual_pnl)` against the raw
fraction 0.06 and rejects. -/
def c6_failing_state : StrategyState :=
  { virtual_positions := []
    last_trade_time := []
    virtual_pnl := -1
    virtual_trade_count := 0
    win_rate := 0 }

/-- C6 (code bug): at `c6_failing_state` the open-trades and cooldown rules
pass and the P&L magnitude (1) is far below 6% of the fixed capital 100000,
yet `can_enter_trade` returns `false`, because the code compares the
currency-valued `abs(virtual_pnl)` against the raw configured fraction 0.06
instead of 6% of capital. -/
theorem can_enter_trade_daily_loss_unit_bug :
    openPositionCount c6_failing_state = 0 ∧
    lookupLastTrade c6_failing_state "NIFTY" = none ∧
    |c6_failing_state.virtual_pnl| < (6 / 100) * 100000 ∧
    can_enter_trade c6_failing_state "NIFTY" 100000 = false := by
  refine ⟨rfl, rfl, by norm_num [c6_failing_state], ?_⟩
  norm_num [can_enter_trade, c6_failing_state, openPositionCount, lookupLastTrade]

/-- C7 failing input: wall-clock 16:00, an open LONG position (entry 100,
stop 90, target 110) quoted at 100 with normal volume.  16:00 is past the
15:15 cutoff, yet the per-tick maintenance check of the strategy returns no
exit (its gate `hour >= 15 and minute >= 15` fails at minute 0) and the
end-of-day gate of the orchestrator (`hour == 15 and minute >= 15`) is also
false, so nothing is flattened; the strategy gate even fires again at 16:15. -/
theorem eod_exit_skipped_at_1600 :
    strategy_eod_condition 16 0 = false ∧
    engine_eod_condition 16 0 = false ∧
    _check_exit_conditions
      { id := "p1", symbol := "NIFTY", trade_type := .LONG, entry_time := 0,
        entry_price := 100, quantity := 1, stop_loss := 90, target_price := 110 }
      100 { volume := 100, avg_volume := some 100 } 16 0 = none ∧
    15 * 60 + 15 ≤ 16 * 60 + 0 ∧
    strategy_eod_condition 16 15 = true := by
  refine ⟨rfl, rfl, ?_, by norm_num, rfl⟩
  norm_num [_check_exit_conditions, strategy_eod_condition]

/-- The LONG position of the C2 scenario: entry 100, ATR 2, stop 97,
target 104. -/
def c2_long_position : Position :=
  { id := "p2", symbol := "NIFTY", trade_type := .LONG, entry_time := 0,
    entry_price := 100, quantity := 1, stop_loss := 97, target_price := 104 }

/-- C2 counterexample: for the scenario position (LONG, stop 97, target 104),
a check at price 104 — target hit — performed while the low-volume condition
also holds (volume 10 against average 100) records `LOW_VOLUME`, not the
`TARGET` the claimed first-match priority requires. -/
theorem exit_reason_priority_counterexample :
    _check_exit_conditions c2_long_position 104
        { volume := 10, avg_volume := some 100 } 10 0 = some "LOW_VOLUME" ∧
    (some "LOW_VOLUME" : Option String) ≠ some "TARGET" := by
  refine ⟨?_, by decide⟩
  norm_num [_check_exit_conditions, strategy_eod_condition, c2_long_position]

/-- C2 (amended): the exit conditions are checked in source order
target/stop, volume collapse, end-of-day, but the LAST matching condition
determines the recorded exit reason (priority EOD over LOW_VOLUME over
TARGET/STOP_LOSS).  In the scenario (LONG, entry 100, stop 97, target 104),
a check at price 104 records TARGET and one at 96.9 records STOP_LOSS only
when the low-volume and end-of-day conditions are absent; a simultaneous
low-volume condition overrides both to LOW_VOLUME. -/
theorem exit_reason_last_match_wins :
    (∀ (position : Position) (current_price : ℚ) (md : ExitMarketData)
        (hour minute : ℕ),
      _check_exit_conditions position current_price md hour minute =
        if strategy_eod_condition hour minute then some "EOD"
        else if md.volume < (1 / 2) * md.avg_volume.getD md.volume then some "LOW_VOLUME"
        else match position.trade_type with
          | .LONG =>
              if position.target_price ≤ current_price then some "TARGET"
              else if current_price ≤ position.stop_loss then some "STOP_LOSS"
              else none
          | .SHORT =>
              if current_price ≤ position.target_price then some "TARGET"
              else if position.stop_loss ≤ current_price then some "STOP_LOSS"
              else none) ∧
    _check_exit_conditions c2_long_position 104
      { volume := 100, avg_volume := some 100 } 10 0 = some "TARGET" ∧
    _check_exit_conditions c2_long_position (969 / 10)
      { volume := 100, avg_volume := some 100 } 10 0 = some "STOP_LOSS" ∧
    _check_exit_conditions c2_long_position 104
      { volume := 10, avg_volume := some 100 } 10 0 = some "LOW_VOLUME" ∧
    _check_exit_conditions c2_long_position (969 / 10)
      { volume := 10, avg_volume := some 100 } 10 0 = some "LOW_VOLUME" := by
  refine ⟨?_, ?_, ?_, ?_, ?_⟩
  · intro position current_price md hour minute
    cases htt : position.trade_type <;>
      simp only [_check_exit_conditions, htt] <;>
      split_ifs <;> simp_all
  · norm_num [_check_exit_conditions, strategy_eod_condition, c2_long_position]
  · norm_num [_check_exit_conditions, strategy_eod_condition, c2_long_position]
  · norm_num [_check_exit_conditions, strategy_eod_condition, c2_long_position]
  · norm_num [_check_exit_conditions, strategy_eod_condition, c2_long_position]

/-- The tier multiplier never drops below one half. -/
lemma size_multiplier_lower (s : ℚ) : 1 / 2 ≤ size_multiplier s := by
  unfold size_multiplier
  split_ifs <;> norm_num

/-- The tier multiplier is monotone in signal strength. -/
lemma size_multiplier_mono {s1 s2 : ℚ} (h : s1 ≤ s2) :
    size_multiplier s1 ≤ size_multiplier s2 := by
  by_cases h1 : 250 < s1
  · have h2 : 250 < s2 := lt_of_lt_of_le h1 h
    rw [size_multiplier, size_multiplier, if_pos h1, if_pos h2]
  · by_cases h2 : 150 ≤ s1
    · have hs1 : size_multiplier s1 = 3 / 4 := by
        rw [size_multiplier, if_neg h1, if_pos ⟨h2, le_of_not_lt h1⟩]
      rw [hs1]
      by_cases h3 : 250 < s2
      · rw [size_multiplier, if_pos h3]; norm_num
      · rw [size_multiplier, if_neg h3, if_pos ⟨le_trans h2 h, le_of_not_lt h3⟩]
    · have hs1 : size_multiplier s1 = 1 / 2 := by
        rw [size_multiplier, if_neg h1, if_neg (fun hc => h2 hc.1)]
      rw [hs1]
      exact size_multiplier_lower s2

/-- Truncation toward zero agrees with the floor on non-negative input. -/
lemma pyInt_of_nonneg {q : ℚ} (h : 0 ≤ q) : pyInt q = ⌊q⌋ := by
  rw [pyInt, if_neg (not_lt.mpr h)]

/-- C8: with the default 2% allocation and fixed capital 100000, the position
size for a positive price equals
max(1, floor(capital x 0.02 x multiplier / price)) with the 3-tier
multiplier of the claim, is monotone non-decreasing in signal strength for
fixed price, and is always at least 1. -/
theorem calculate_position_size_spec (s : StrategyState) (s1 s2 price : ℚ)
    (hcfg : s.max_position_size = 2 / 100) (hp : 0 < price) (h12 : s1 ≤ s2) :
    calculate_position_size s s1 price =
      max 1 ⌊100000 * (2 / 100) *
        (if 250 < s1 then (1 : ℚ) else if 150 ≤ s1 ∧ s1 ≤ 250 then 3 / 4 else 1 / 2)
        / price⌋ ∧
    calculate_position_size s s1 price ≤ calculate_position_size s s2 price ∧
    1 ≤ calculate_position_size s s1 price := by
  have hv : ∀ t : ℚ, (0 : ℚ) ≤ 100000 * (2 / 100) * size_multiplier t / price := by
    intro t
    have hm : (0 : ℚ) ≤ size_multiplier t :=
      le_trans (by norm_num) (size_multiplier_lower t)
    positivity
  have hval : ∀ t : ℚ, calculate_position_size s t price =
      max 1 ⌊100000 * (2 / 100) * size_multiplier t / price⌋ := by
    intro t
    rw [calculate_position_size, hcfg, pyInt_of_nonneg (hv t)]
  refine ⟨?_, ?_, ?_⟩
  · rw [hval s1, size_multiplier]
  · rw [hval s1, hval s2]
    have hmul : 100000 * (2 / 100) * size_multiplier s1 ≤
        100000 * (2 / 100) * size_multiplier s2 := by
      have := size_multiplier_mono h12
      nlinarith
    exact max_le_max le_rfl
      (Int.floor_le_floor (by exact div_le_div_of_nonneg_right hmul hp.le))
  · rw [calculate_position_size]
    exact le_max_left 1 _

/-- A default-configured strategy state with no history, for the C8
witness. -/
def c8_state : StrategyState :=
  { virtual_positions := []
    last_trade_time := []
    virtual_pnl := 0
    virtual_trade_count := 0
    win_rate := 0 }

/-- C8 witness: the specification evaluated at strengths 100 and 300 and
price 50. -/
theorem calculate_position_size_spec_witness :
    calculate_position_size c8_state 100 50 =
      max 1 ⌊100000 * (2 / 100) *
        (if (250 : ℚ) < 100 then (1 : ℚ)
         else if (150 : ℚ) ≤ 100 ∧ (100 : ℚ) ≤ 250 then 3 / 4 else 1 / 2) / 50⌋ ∧
    calculate_position_size c8_state 100 50 ≤ calculate_position_size c8_state 300 50 ∧
    1 ≤ calculate_position_size c8_state 100 50 :=
  calculate_position_size_spec c8_state 100 300 50 rfl (by norm_num) (by norm_num)

/-- C9: when the risk rules block a signal (`can_enter_trade` is false),
`execute_virtual_trade` returns no position and the strategy state —
including `virtual_positions` and `last_trade_time` — is unchanged;
consequently `last_trade_time` is touched only on the successful path. -/
theorem execute_virtual_trade_rejected_unchanged (s : StrategyState)
    (signal : Signal) (now : ℚ)
    (h : can_enter_trade s signal.symbol now = false) :
    execute_virtual_trade s signal now = (none, s) := by
  simp [execute_virtual_trade, h]

/-- A strategy state already holding `max_open_trades = 3` open positions,
for the C9 witness. -/
def c9_state : StrategyState :=
  { virtual_positions := [c2_long_position, c2_long_position, c2_long_position]
    last_trade_time := []
    virtual_pnl := 0
    virtual_trade_count := 0
    win_rate := 0 }

/-- The signal used by the C9 witness. -/
def c9_signal : Signal :=
  { strategy_id := "pva", symbol := "NIFTY", signal_type := .LONG,
    signal_strength := 260, price := 100, atr := some 2, timestamp := 0 }

/-- C9 witness: with three open positions the entry is risk-rejected and the
state passes through unchanged. -/
theorem execute_virtual_trade_rejected_witness :
    execute_virtual_trade c9_state c9_signal 0 = (none, c9_state) :=
  execute_virtual_trade_rejected_unchanged c9_state c9_signal 0 (by
    norm_num [can_enter_trade, c9_state, c9_signal, openPositionCount,
      c2_long_position])

/-- Folding a run of ticks that never trigger a new bar accumulates
max/min/last/sum into the open bar, by induction over the run. -/
lemma foldTicks_aux (tf : String) (ts0 : PyTimestamp) (rest : List TickInfo) :
    ∀ (bar : OhlcvBar), bar.timestamp = ts0 →
      (∀ t ∈ rest, _should_create_new_bar ts0 t.timestamp tf = false) →
      rest.foldl (fun b t => _update_ohlcv b t tf) bar =
        { open_price := bar.open_price
          high := (rest.map TickInfo.high).foldl max bar.high
          low := (rest.map TickInfo.low).foldl min bar.low
          close := (rest.map TickInfo.ltp).getLastD bar.close
          volume := bar.volume + (rest.map TickInfo.volume).sum
          timestamp := ts0 } := by
  induction rest with
  | nil =>
      intro bar hts _
      cases bar
      simp_all
  | cons t ts ih =>
      intro bar hts h
      have hnew : _should_create_new_bar bar.timestamp t.timestamp tf = false := by
        rw [hts]
        exact h t (List.mem_cons_self t ts)
      have hstep : _update_ohlcv bar t tf =
          { bar with
              high := max bar.high t.high
              low := min bar.low t.low
              close := t.ltp
              volume := bar.volume + t.volume } := by
        rw [_update_ohlcv, hnew]
        simp
      rw [List.foldl_cons, hstep,
        ih _ (by simp [hts]) (fun u hu => h u (List.mem_cons_of_mem t hu))]
      have hclose : ((t :: ts).map TickInfo.ltp).getLastD bar.close
          = (ts.map TickInfo.ltp).getLastD t.ltp := by
        rw [List.map_cons, List.getLastD_cons]
      rw [hclose]
      simp [add_assoc]


/-- C4: for any tick sequence that stays within one open bar (no tick
triggers a new bar), the folded bar has high = max of the tick highs,
low = min of the tick lows, close = the last tick price, and
volume = the sum of the tick volumes; and a new bar is triggered iff the
elapsed seconds since the bar start reach the timeframe duration
(60 / 300 / 900 for the fixed-duration timeframes) or, for the daily
timeframe, the calendar date differs. -/
theorem ohlcv_aggregation_spec (t0 : TickInfo) (rest : List TickInfo) (tf : String)
    (h : ∀ t ∈ rest, _should_create_new_bar t0.timestamp t.timestamp tf = false) :
    (foldTicks t0 rest tf).high = (rest.map TickInfo.high).foldl max t0.high ∧
    (foldTicks t0 rest tf).low = (rest.map TickInfo.low).foldl min t0.low ∧
    (foldTicks t0 rest tf).close = (rest.map TickInfo.ltp).getLastD t0.ltp ∧
    (foldTicks t0 rest tf).volume = t0.volume + (rest.map TickInfo.volume).sum ∧
    (∀ cur : PyTimestamp,
      (_should_create_new_bar t0.timestamp cur "1min" = true ↔
        60 ≤ cur.sec - t0.timestamp.sec) ∧
      (_should_create_new_bar t0.timestamp cur "5min" = true ↔
        300 ≤ cur.sec - t0.timestamp.sec) ∧
      (_should_create_new_bar t0.timestamp cur "15min" = true ↔
        900 ≤ cur.sec - t0.timestamp.sec) ∧
      (_should_create_new_bar t0.timestamp cur "daily" = true ↔
        cur.day ≠ t0.timestamp.day)) := by
  have haux := foldTicks_aux tf t0.timestamp rest (barFromTick t0) rfl h
  rw [foldTicks] at *
  rw [haux]
  refine ⟨rfl, rfl, rfl, rfl, ?_⟩
  intro cur
  refine ⟨?_, ?_, ?_, ?_⟩ <;> simp [_should_create_new_bar]

/-- First tick of the C4 witness bar. -/
def c4_t0 : TickInfo := ⟨100, 101, 99, 10, ⟨0, 0⟩⟩

/-- Two further ticks, 30 and 59 seconds into the same 1-minute bar. -/
def c4_rest : List TickInfo := [⟨102, 103, 98, 5, ⟨30, 0⟩⟩, ⟨101, 102, 100, 7, ⟨59, 0⟩⟩]

/-- C4 witness: the aggregation property evaluated on a concrete three-tick
1-minute bar. -/
theorem ohlcv_aggregation_spec_witness :
    (foldTicks c4_t0 c4_rest "1min").high = (c4_rest.map TickInfo.high).foldl max c4_t0.high ∧
    (foldTicks c4_t0 c4_rest "1min").low = (c4_rest.map TickInfo.low).foldl min c4_t0.low ∧
    (foldTicks c4_t0 c4_rest "1min").close = (c4_rest.map TickInfo.ltp).getLastD c4_t0.ltp ∧
    (foldTicks c4_t0 c4_rest "1min").volume = c4_t0.volume + (c4_rest.map TickInfo.volume).sum ∧
    (∀ cur : PyTimestamp,
      (_should_create_new_bar c4_t0.timestamp cur "1min" = true ↔
        60 ≤ cur.sec - c4_t0.timestamp.sec) ∧
      (_should_create_new_bar c4_t0.timestamp cur "5min" = true ↔
        300 ≤ cur.sec - c4_t0.timestamp.sec) ∧
      (_should_create_new_bar c4_t0.timestamp cur "15min" = true ↔
        900 ≤ cur.sec - c4_t0.timestamp.sec) ∧
      (_should_create_new_bar c4_t0.timestamp cur "daily" = true ↔
        cur.day ≠ c4_t0.timestamp.day)) :=
  ohlcv_aggregation_spec c4_t0 c4_rest "1min" (by decide)


/-- C5: when every reconnection attempt fails, the loop performs exactly 5
attempts with backoff delays 1, 2, 4, 8, 16 before the respective attempts,
ends not reconnected with the max-attempts (`FeedUnavailable`) condition
raised, and stops (the loop terminates); when the attempt with index k < 5 is
the first to succeed, the loop reports a successful reconnect and re-issues
exactly the previously held subscriptions. -/
theorem reconnect_backoff_spec (connectOk : ℕ → Bool) (subscriptions : List String) :
    ((∀ k, connectOk k = false) →
      _handle_reconnection connectOk subscriptions =
        { delays := [1, 2, 4, 8, 16], retry_count := 5, reconnected := false,
          resubscribed := [] } ∧
      feed_unavailable (_handle_reconnection connectOk subscriptions) = true) ∧
    (∀ k, k < 5 → (∀ j, j < k → connectOk j = false) → connectOk k = true →
      (_handle_reconnection connectOk subscriptions).reconnected = true ∧
      (_handle_reconnection connectOk subscriptions).resubscribed = subscriptions) := by
  constructor
  · intro hfail
    have hres : _handle_reconnection connectOk subscriptions =
        { delays := [1, 2, 4, 8, 16], retry_count := 5, reconnected := false,
          resubscribed := [] } := by
      rw [_handle_reconnection]
      rw [reconnect_loop, if_pos (by norm_num), hfail 0, if_neg (by simp)]
      rw [reconnect_loop, if_pos (by norm_num), hfail 1, if_neg (by simp)]
      rw [reconnect_loop, if_pos (by norm_num), hfail 2, if_neg (by simp)]
      rw [reconnect_loop, if_pos (by norm_num), hfail 3, if_neg (by simp)]
      rw [reconnect_loop, if_pos (by norm_num), hfail 4, if_neg (by simp)]
      rw [reconnect_loop, if_neg (by norm_num)]
      norm_num
    exact ⟨hres, by rw [hres]; rfl⟩
  · intro k hk hbefore hsucc
    have hsub : (if subscriptions.isEmpty then [] else subscriptions) = subscriptions := by
      cases subscriptions <;> simp
    interval_cases k
    · rw [_handle_reconnection, reconnect_loop, if_pos (by norm_num), hsucc]
      simp [hsub]
    · rw [_handle_reconnection,
        reconnect_loop, if_pos (by norm_num), hbefore 0 (by norm_num), if_neg (by simp),
        reconnect_loop, if_pos (by norm_num), hsucc]
      simp [hsub]
    · rw [_handle_reconnection,
        reconnect_loop, if_pos (by norm_num), hbefore 0 (by norm_num), if_neg (by simp),
        reconnect_loop, if_pos (by norm_num), hbefore 1 (by norm_num), if_neg (by simp),
        reconnect_loop, if_pos (by norm_num), hsucc]
      simp [hsub]
    · rw [_handle_reconnection,
        reconnect_loop, if_pos (by norm_num), hbefore 0 (by norm_num), if_neg (by simp),
        reconnect_loop, if_pos (by norm_num), hbefore 1 (by norm_num), if_neg (by simp),
        reconnect_loop, if_pos (by norm_num), hbefore 2 (by norm_num), if_neg (by simp),
        reconnect_loop, if_pos (by norm_num), hsucc]
      simp [hsub]
    · rw [_handle_reconnection,
        reconnect_loop, if_pos (by norm_num), hbefore 0 (by norm_num), if_neg (by simp),
        reconnect_loop, if_pos (by norm_num), hbefore 1 (by norm_num), if_neg (by simp),
        reconnect_loop, if_pos (by norm_num), hbefore 2 (by norm_num), if_neg (by simp),
        reconnect_loop, if_pos (by norm_num), hbefore 3 (by norm_num), if_neg (by simp),
        reconnect_loop, if_pos (by norm_num), hsucc]
      simp [hsub]

/-- C5 witness: five consecutive failures with one held subscription. -/
theorem reconnect_backoff_spec_witness :
    _handle_reconnection (fun _ => false) ["NSE_INDEX|Nifty 50"] =
      { delays := [1, 2, 4, 8, 16], retry_count := 5, reconnected := false,
        resubscribed := [] } :=
  ((reconnect_backoff_spec (fun _ => false) ["NSE_INDEX|Nifty 50"]).1 (fun _ => rfl)).1


/-- C3: over snapshots with a meaningful 20-period volume average and
resistance (non-negative, as produced from real bar data) and at least ten
OBV entries, `generate_signals` emits a LONG signal iff all seven long
conditions hold simultaneously — price above resistance, volume above 1.5x
its 20-period average, OBV above its trailing average over the slice 10..5
bars back, price above POC, VROC above 200, price above VWAP, and volume
above its 20-period average; in particular flipping any single condition to
false suppresses the signal. -/
theorem pva_long_signal_iff (ind : PVASnapshot)
    (hres : 0 ≤ ind.resistance)
    (havg : 0 ≤ ind.avg_volume_20.getLastD ind.current_volume)
    (hobv : 10 ≤ ind.obv.length) :
    generate_signals ind = some TradeType.LONG ↔
      (ind.resistance < ind.current_price ∧
       ind.avg_volume_20.getLastD ind.current_volume * (3 / 2) < ind.current_volume ∧
       npMean (obvSlice ind.obv) < ind.obv.getLastD 0 ∧
       ind.poc < ind.current_price ∧
       (200 : ℚ) < ind.vroc.getLastD 0 ∧
       ind.vwap.getLastD ind.current_price < ind.current_price ∧
       ind.avg_volume_20.getLastD ind.current_volume < ind.current_volume) := by
  constructor
  · intro h
    simp only [generate_signals] at h
    split_ifs at h with hg1 hg2 hlong hshort
    all_goals try simp at h
    simp only [_check_long_conditions, LongConditions.all_met, if_pos hobv,
      Bool.and_eq_true, decide_eq_true_eq] at hlong
    obtain ⟨⟨⟨⟨⟨⟨h1, h2⟩, h3⟩, h4⟩, h5⟩, h6⟩, h7⟩ := hlong
    refine ⟨h1, h2, h3, h4, by linarith, h6, h7⟩
  · rintro ⟨h1, h2, h3, h4, h5, h6, h7⟩
    have hp : 0 < ind.current_price := lt_of_le_of_lt hres h1
    have hvol : 0 < ind.current_volume :=
      lt_of_le_of_lt (by positivity) h2
    have hvroc : ¬ ind.vroc.length = 0 := by
      intro hv
      rw [List.length_eq_zero] at hv
      rw [hv] at h5
      norm_num [List.getLastD] at h5
    have hvwap : ¬ ind.vwap.length = 0 := by
      intro hv
      rw [List.length_eq_zero] at hv
      rw [hv] at h6
      simp [List.getLastD] at h6
    have havgne : ¬ ind.avg_volume_20.length = 0 := by
      intro hv
      rw [List.length_eq_zero] at hv
      rw [hv] at h7
      simp [List.getLastD] at h7
    have hg1 : ¬ (ind.current_price = 0 ∨ ind.current_volume = 0) := by
      rintro (hz | hz)
      · exact absurd hz (ne_of_gt hp)
      · exact absurd hz (ne_of_gt hvol)
    have hg2 : ¬ (ind.obv.length = 0 ∨ ind.vroc.length = 0 ∨ ind.vwap.length = 0 ∨
        ind.avg_volume_20.length = 0) := by
      rintro (hz | hz | hz | hz)
      · omega
      · exact hvroc hz
      · exact hvwap hz
      · exact havgne hz
    have hall : (_check_long_conditions ind.current_price ind.current_volume
        (ind.obv.getLastD 0) (ind.vroc.getLastD 0)
        (ind.vwap.getLastD ind.current_price)
        (ind.avg_volume_20.getLastD ind.current_volume)
        ind.resistance ind.poc ind.obv).all_met = true := by
      simp only [_check_long_conditions, LongConditions.all_met, if_pos hobv,
        Bool.and_eq_true, decide_eq_true_eq]
      exact ⟨⟨⟨⟨⟨⟨h1, h2⟩, h3⟩, h4⟩, by linarith⟩, h6⟩, h7⟩
    simp only [generate_signals, if_neg hg1, if_neg hg2, hall, if_true]


/-- Concrete PVA snapshot satisfying all seven long conditions, for the C3
witness. -/
def c3_snapshot : PVASnapshot :=
  { current_price := 110
    current_volume := 100
    obv := [0, 0, 0, 0, 0, 0, 0, 0, 0, 100]
    vroc := [250]
    vwap := [109]
    avg_volume_20 := [50]
    poc := 105
    resistance := 100
    support := 0 }

/-- C3 witness: the iff applied at `c3_snapshot`, yielding a LONG signal. -/
theorem pva_long_signal_iff_witness :
    generate_signals c3_snapshot = some TradeType.LONG :=
  (pva_long_signal_iff c3_snapshot (by norm_num [c3_snapshot])
      (by norm_num [c3_snapshot, List.getLastD])
      (by norm_num [c3_snapshot])).mpr
    (by norm_num [c3_snapshot, npMean, obvSlice, List.getLastD])


end TradingBot
